import Mathlib

/-!
Verification development for the semantic-retrieval core of the
family-knowledge repository.  The Python services under
`src/ai_integration/services/` (embedding_service.py, search_service.py,
rag_service.py) are shallowly embedded as pure Lean functions: database
and cache state is passed explicitly, machine floats are modelled by `ℚ`,
fallible external calls (embedding API, chat API, search backend) are
modelled by `Option`/`Except` valued parameters, and the number of
external embedding-API invocations is returned as an explicit trace
component.
-/

namespace FamilyKM

/-- Embedding vectors (Python `List[float]`, modelled over `ℚ`). -/
abbrev Vec := List ℚ

/-- Python `str.strip()`: drop whitespace from both ends (written at the
character-list level so it evaluates inside the kernel). -/
def strStrip (s : String) : String :=
  ⟨((s.data.dropWhile Char.isWhitespace).reverse.dropWhile Char.isWhitespace).reverse⟩

/-- Python `str.lower()` (character-wise lowering, written at the
character-list level so it evaluates inside the kernel). -/
def strToLower (s : String) : String :=
  ⟨s.data.map Char.toLower⟩

/-- Python truthiness of an optional vector: `None` and the empty list are
falsy, a non-empty list is truthy. -/
def optVecTruthy : Option Vec → Bool
  | none => false
  | some v => !v.isEmpty

/-! ### Embedding cache (ai_integration/models.py: EmbeddingCache rows)

A cache row keyed by `content_hash`; `update_or_create` semantics mirror
Django's: update the row with the given key if present, else insert. -/

/-- One `EmbeddingCache` row minus its key (the key is the assoc-list key). -/
structure CacheEntry where
  content_type : String
  content_id : Nat
  embedding : Vec
deriving DecidableEq

/-- The cache table: association list from `content_hash` to the row. -/
abbrev Cache := List (String × CacheEntry)

/-- Django `EmbeddingCache.objects.update_or_create(content_hash=h, defaults=e)`:
overwrite the row keyed `h` when it exists, otherwise insert a new row. -/
def cacheUpdateOrCreate (cache : Cache) (h : String) (e : CacheEntry) : Cache :=
  if (cache.lookup h).isSome then
    cache.map fun p => if p.1 = h then (h, e) else p
  else
    (h, e) :: cache

/-! ### EmbeddingService (embedding_service.py) -/

/-- The embedding service.  `hashFn` models `get_content_hash` (SHA-256 hex
digest of the UTF-8 text — an injective digest left abstract here), and
`gen` models the outcome of the external OpenAI embeddings call on the
stripped text (`none` = any upstream failure). -/
structure EmbeddingService where
  hashFn : String → String
  gen : String → Option Vec

/-- EmbeddingService.generate_embedding: returns `None` for empty or
whitespace-only text without calling the API, otherwise calls the API on
`text.strip()`; any API failure is already `none` in `gen`. -/
def EmbeddingService.generate_embedding (svc : EmbeddingService) (text : String) : Option Vec :=
  if strStrip text = "" then none
  else svc.gen (strStrip text)

/-- Result of `get_or_create_embedding`: the returned value, the cache after
the call, and how many times the external embedding API was invoked. -/
structure GoceResult where
  value : Option Vec
  cache : Cache
  genCalls : Nat
deriving DecidableEq

/-- EmbeddingService.get_or_create_embedding: empty/whitespace text gives
`None`; on a cache hit for the content hash the cached vector is returned
with no API call and no write; on a miss the API is invoked once, a
successful vector is upserted keyed by the hash with the current owner's
metadata, and a failed generation writes nothing. -/
def EmbeddingService.get_or_create_embedding (svc : EmbeddingService)
    (text content_type : String) (content_id : Nat) (cache : Cache) : GoceResult :=
  if strStrip text = "" then ⟨none, cache, 0⟩
  else
    let content_hash := svc.hashFn text
    match cache.lookup content_hash with
    | some cached => ⟨some cached.embedding, cache, 0⟩
    | none =>
      match svc.generate_embedding text with
      | some embedding =>
          ⟨some embedding,
           cacheUpdateOrCreate cache content_hash ⟨content_type, content_id, embedding⟩, 1⟩
      | none => ⟨none, cache, 1⟩

/-- A model instance as seen by `update_model_embedding`: the class name
(e.g. "Story"), the primary key, the text fields consulted by
`_extract_content_text`, and the two embedding bookkeeping fields.
Type-specific relational fields not read by the embedded code are elided. -/
structure MInstance where
  model_name : String
  id : Nat
  title : String
  content : String
  name : String
  description : String
  bio : String
  content_embedding : Option Vec
  embedding_updated : Option Nat
deriving DecidableEq

/-- EmbeddingService._extract_content_text: per-type canonical text
(title/name + body), `person` falls back from bio to name, and unknown
types try the generic field priority content, description, bio, title,
name, returning the first truthy value (all fields exist on `MInstance`,
matching `hasattr` always succeeding in the generic loop). -/
def extract_content_text (inst : MInstance) : String :=
  let model_name := strToLower inst.model_name
  if model_name = "story" then inst.title ++ "\n\n" ++ inst.content
  else if model_name = "event" then inst.name ++ "\n\n" ++ inst.description
  else if model_name = "heritage" then inst.title ++ "\n\n" ++ inst.description
  else if model_name = "health" then inst.title ++ "\n\n" ++ inst.description
  else if model_name = "person" then (if inst.bio ≠ "" then inst.bio else inst.name)
  else if inst.content ≠ "" then inst.content
  else if inst.description ≠ "" then inst.description
  else if inst.bio ≠ "" then inst.bio
  else if inst.title ≠ "" then inst.title
  else if inst.name ≠ "" then inst.name
  else ""

/-- Result of `update_model_embedding`: the returned flag, the instance
after the call, the cache after the call, and the embedding-API call count. -/
structure UpdateResult where
  updated : Bool
  inst : MInstance
  cache : Cache
  genCalls : Nat
deriving DecidableEq

/-- EmbeddingService.update_model_embedding: returns `False` with no side
effect when the extracted text is empty; unless `force_update`, when the
instance has a truthy embedding and a freshness timestamp and the cache row
for the current text's hash stores a vector equal to the instance's one,
returns `False` with no side effect; otherwise resolves the vector through
`get_or_create_embedding` and on success writes it and the timestamp `now`
into the instance and returns `True`, on failure returns `False` leaving
the instance untouched.  (`hasattr(instance, 'content_embedding')` always
holds for `MInstance`, so that guard is omitted.) -/
def EmbeddingService.update_model_embedding (svc : EmbeddingService)
    (inst : MInstance) (force_update : Bool) (now : Nat) (cache : Cache) : UpdateResult :=
  let content_text := extract_content_text inst
  if content_text = "" then ⟨false, inst, cache, 0⟩
  else
    let upToDate :=
      !force_update && optVecTruthy inst.content_embedding && inst.embedding_updated.isSome &&
        (match cache.lookup (svc.hashFn content_text), inst.content_embedding with
         | some cached, some v => cached.embedding == v
         | _, _ => false)
    if upToDate then ⟨false, inst, cache, 0⟩
    else
      let content_type := strToLower inst.model_name
      let r := svc.get_or_create_embedding content_text content_type inst.id cache
      match r.value with
      | some embedding =>
          ⟨true,
           { inst with content_embedding := some embedding, embedding_updated := some now },
           r.cache, r.genCalls⟩
      | none => ⟨false, inst, r.cache, r.genCalls⟩

/-! ### SearchService (search_service.py)

The pgvector-backed query sets are embedded as pure list pipelines over an
explicit corpus.  The cosine-distance computation is delegated by the code
to the external vector store (`CosineDistance`), so it enters the model as
a parameter `dist`; the backend's `similarity = 1 - distance` derivation,
threshold filter, descending ordering and limit are modelled explicitly. -/

/-- The four searchable collections of `SEARCHABLE_MODELS`. -/
inductive ModelKey
  | story
  | event
  | heritage
  | health
deriving DecidableEq

/-- A stored record as the search pipeline sees it: primary key, the two
text fields surfaced to results, and the optional stored embedding.
Type-specific relational metadata not used by any verified property is
elided. -/
structure SRecord where
  id : Nat
  title : String
  content : String
  content_embedding : Option Vec
deriving DecidableEq

/-- The database corpus: one list of records per searchable collection. -/
structure Corpus where
  story : List SRecord
  event : List SRecord
  heritage : List SRecord
  health : List SRecord

/-- Collection selection on a corpus. -/
def Corpus.get (c : Corpus) : ModelKey → List SRecord
  | .story => c.story
  | .event => c.event
  | .heritage => c.heritage
  | .health => c.health

/-- SearchService.SEARCHABLE_MODELS: registry of logical category names. -/
def SEARCHABLE_MODELS : List (String × ModelKey) :=
  [("story", .story), ("event", .event), ("heritage", .heritage), ("health", .health)]

/-- A formatted search result (`_format_search_result` output dict plus the
`content_type` tag that `semantic_search` adds afterwards).  Body text is
truncated to 200 characters with a trailing ellipsis when longer, as in
every branch of the Python formatter. -/
structure SearchResult where
  id : Nat
  title : String
  content : String
  similarity : ℚ
  content_type : Option String
deriving DecidableEq

/-- SearchService._format_search_result on the embedded record fields. -/
def format_search_result (r : SRecord) (similarity : ℚ) : SearchResult :=
  { id := r.id
    title := r.title
    content := if r.content.data.length > 200 then (⟨r.content.data.take 200⟩ ++ "..." : String) else r.content
    similarity := similarity
    content_type := none }

/-- SearchService._search_model: records with a non-null embedding are
annotated with `similarity = 1 - dist(stored, query)`, filtered to
`similarity ≥ threshold`, ordered by similarity descending and capped at
`limit`, then formatted. -/
def search_model (dist : Vec → Vec → ℚ) (records : List SRecord)
    (query_embedding : Vec) (limit : Nat) (similarity_threshold : ℚ) : List SearchResult :=
  let annotated := records.filterMap fun r =>
    r.content_embedding.map fun e => (r, 1 - dist e query_embedding)
  let filtered := annotated.filter fun p => similarity_threshold ≤ p.2
  let sorted := filtered.mergeSort fun a b => b.2 ≤ a.2
  (sorted.take limit).map fun p => format_search_result p.1 p.2

/-- SearchService.semantic_search: empty/whitespace query or a falsy query
embedding gives `[]`; `model_types` defaults to the whole registry when
`None` or empty; unknown category names are silently skipped; per-category
hits are tagged with their category, concatenated, globally re-sorted by
similarity descending and truncated to `limit`. -/
def semantic_search (dist : Vec → Vec → ℚ) (corpus : Corpus) (svc : EmbeddingService)
    (query : String) (model_types : Option (List String)) (limit : Nat)
    (similarity_threshold : ℚ) : List SearchResult :=
  if strStrip query = "" then []
  else
    match svc.generate_embedding query with
    | none => []
    | some query_embedding =>
      if query_embedding.isEmpty then []
      else
        let types : List String :=
          match model_types with
          | none => SEARCHABLE_MODELS.map (·.1)
          | some l => if l.isEmpty then SEARCHABLE_MODELS.map (·.1) else l
        let all_results : List SearchResult := (types.map fun model_type =>
          match SEARCHABLE_MODELS.lookup model_type with
          | none => ([] : List SearchResult)
          | some key =>
            (search_model dist (corpus.get key) query_embedding limit similarity_threshold).map
              fun r => { r with content_type := some model_type }).flatten
        (all_results.mergeSort fun a b => b.similarity ≤ a.similarity).take limit

/-- The per-category candidate list of `find_related_content`: records with
a non-null embedding, excluding the reference record only when scanning the
reference's own type (Django `exclude(id=None)` on the other types excludes
nothing, primary keys being non-null). -/
def related_candidates (corpus : Corpus) (content_type : String) (content_id : Nat)
    (model_type : String) (key : ModelKey) : List SRecord :=
  ((corpus.get key).filter fun r => r.content_embedding.isSome).filter
    fun r => !(model_type == content_type && r.id == content_id)

/-- SearchService.find_related_content: unknown type, missing reference
record or falsy reference embedding give `[]`; otherwise every registered
collection is scanned with the reference's stored vector as query, with no
similarity threshold, each collection ordered descending and capped at
`limit`, and the tagged concatenation re-sorted descending and capped at
`limit` globally. -/
def find_related_content (dist : Vec → Vec → ℚ) (corpus : Corpus)
    (content_id : Nat) (content_type : String) (limit : Nat) : List SearchResult :=
  match SEARCHABLE_MODELS.lookup content_type with
  | none => []
  | some refKey =>
    match (corpus.get refKey).find? (fun r => r.id == content_id) with
    | none => []
    | some ref_obj =>
      match ref_obj.content_embedding with
      | none => []
      | some refEmb =>
        if refEmb.isEmpty then []
        else
          let all_results : List SearchResult := (SEARCHABLE_MODELS.map fun mk =>
            let candidates := related_candidates corpus content_type content_id mk.1 mk.2
            let annotated : List (SRecord × ℚ) := candidates.filterMap fun r =>
              r.content_embedding.map fun e => (r, 1 - dist e refEmb)
            let sorted := annotated.mergeSort fun a b => b.2 ≤ a.2
            (sorted.take limit).map fun p =>
              { format_search_result p.1 p.2 with content_type := some mk.1 }).flatten
          (all_results.mergeSort fun a b => b.similarity ≤ a.similarity).take limit

/-! ### RAGService (rag_service.py)

The external chat-completion call is a parameter (`Except`-valued, `error`
being any raised exception); the search backend entering
`generate_response` is likewise an `Except`-valued parameter, since the
claim under verification is about exceptions crossing that boundary.
Wall-clock `processing_time` is a passed-in observation. -/

/-- Substring containment, the Python `needle in haystack` test. -/
def strContains (haystack needle : String) : Bool :=
  haystack.data.tails.any fun t => needle.data.isPrefixOf t

/-- Health keyword bag of `_classify_query`. -/
def health_keywords : List String :=
  ["health", "medical", "illness", "disease", "hereditary", "genetic", "健康", "疾病", "遗传"]

/-- Event-planning keyword bag of `_classify_query`. -/
def event_keywords : List String :=
  ["celebration", "party", "reunion", "birthday", "wedding", "庆祝", "聚会", "生日"]

/-- Heritage keyword bag of `_classify_query`. -/
def heritage_keywords : List String :=
  ["tradition", "heritage", "recipe", "values", "wisdom", "传统", "文化", "智慧"]

/-- Relationship keyword bag of `_classify_query`. -/
def relationship_keywords : List String :=
  ["family", "relative", "relationship", "cousin", "亲戚", "家人", "关系"]

/-- Memory keyword bag of `_classify_query`. -/
def memory_keywords : List String :=
  ["story", "memory", "remember", "childhood", "past", "故事", "回忆", "童年"]

/-- RAGService._classify_query: keyword-bag matching on the lowercased
query, categories tried in the fixed priority order health, event,
heritage, relationship, memory; the first bag with a member occurring in
the query wins, otherwise "general". -/
def classify_query (query : String) : String :=
  let query_lower := strToLower query
  if health_keywords.any (fun kw => strContains query_lower kw) then "health_pattern"
  else if event_keywords.any (fun kw => strContains query_lower kw) then "event_planning"
  else if heritage_keywords.any (fun kw => strContains query_lower kw) then "cultural_heritage"
  else if relationship_keywords.any (fun kw => strContains query_lower kw) then "relationship_discovery"
  else if memory_keywords.any (fun kw => strContains query_lower kw) then "memory_discovery"
  else "general"

/-- RAGService._detect_language: count code points in the CJK Unified
Ideographs block U+4E00–U+9FFF; strictly more than 30% of the character
count classifies as Chinese (the float literal `0.3` is modelled exactly
as `3/10`). -/
def detect_language (query : String) : String :=
  let chinese_chars := query.data.countP fun c => 0x4e00 ≤ c.toNat && c.toNat ≤ 0x9fff
  if (chinese_chars : ℚ) > (query.data.length : ℚ) * (3/10) then "zh-CN" else "en-US"

/-- Python's binary `min` on rationals, written out so it reduces in the
kernel. -/
def qmin (a b : ℚ) : ℚ := if a ≤ b then a else b

/-- RAGService._calculate_confidence: `0.0` on an empty list, otherwise the
mean similarity of the first three results plus `min(0.1 * count, 0.2)`,
clamped to `1.0`. -/
def calculate_confidence (search_results : List SearchResult) : ℚ :=
  if search_results.isEmpty then 0
  else
    let top_similarities := (search_results.take 3).map (·.similarity)
    let avg_similarity := top_similarities.sum / (top_similarities.length : ℚ)
    let count_boost := qmin ((search_results.length : ℚ) * (1/10)) (2/10)
    qmin (avg_similarity + count_boost) 1

/-- One numbered block of `_build_context` (header line chosen by content
type, body and relevance line).  Rendering of the type-specific metadata
fields elided from `SearchResult` is elided with them. -/
def context_block (i : Nat) (r : SearchResult) : String :=
  let header :=
    if r.content_type = some "story" then
      toString i ++ ". Family Story: \"" ++ r.title ++ "\"\n   Content: " ++ r.content
    else if r.content_type = some "event" then
      toString i ++ ". Family Event: \"" ++ r.title ++ "\"\n   Description: " ++ r.content
    else if r.content_type = some "heritage" then
      toString i ++ ". Family Heritage: \"" ++ r.title ++ "\"\n   Description: " ++ r.content
    else if r.content_type = some "health" then
      toString i ++ ". Health Record: \"" ++ r.title ++ "\"\n   Details: " ++ r.content
    else ""
  header ++ "\n   Relevance: " ++ toString r.similarity ++ "\n"

/-- RAGService._build_context: empty results give the empty string
(signalling "no context"), otherwise a fixed header followed by one block
per result, numbered from 1. -/
def build_context (search_results : List SearchResult) : String :=
  if search_results.isEmpty then ""
  else
    "Based on family records, here is relevant information:\n" ++
      String.join ((search_results.enumFrom 1).map fun p => context_block p.1 p.2)

/-- The Chinese fallback table of `_generate_fallback_response`. -/
def fallback_zh (query_type : String) : String :=
  if query_type = "memory_discovery" then
    "很抱歉，我在家庭记录中没有找到与您的问题直接相关的故事。不过，这可能是一个好机会来记录新的家庭记忆。您愿意分享一些相关的故事吗？"
  else if query_type = "health_pattern" then
    "关于您询问的健康问题，我在现有的家庭健康记录中没有找到相关信息。建议您咨询专业医生，并考虑将重要的健康信息添加到家庭记录中。"
  else if query_type = "event_planning" then
    "虽然我没有找到关于类似活动的具体记录，但我建议您可以创造新的家庭传统。考虑一下什么样的庆祝方式最能体现您家庭的价值观和喜好。"
  else if query_type = "cultural_heritage" then
    "这是一个很好的问题！虽然我没有找到相关的传统记录，但这正是开始记录家庭文化传承的好时机。"
  else if query_type = "relationship_discovery" then
    "关于家庭关系的问题，我建议您可以与长辈交流，了解更多家族史。同时，将这些珍贵的关系信息记录下来会很有价值。"
  else "很抱歉，我没有找到与您的问题直接相关的家庭信息。不过，我很乐意帮助您思考如何收集和记录相关信息。"

/-- The English fallback table of `_generate_fallback_response`. -/
def fallback_en (query_type : String) : String :=
  if query_type = "memory_discovery" then
    "I couldn't find specific family stories related to your question in our records. This might be a wonderful opportunity to capture new family memories. Would you like to share some related stories?"
  else if query_type = "health_pattern" then
    "I don't have specific health information related to your question in our family records. I recommend consulting with healthcare professionals and considering adding important health information to your family records."
  else if query_type = "event_planning" then
    "While I don't have records of similar events, this could be a chance to create new family traditions. Consider what type of celebration would best reflect your family's values and preferences."
  else if query_type = "cultural_heritage" then
    "That's a wonderful question! While I don't have specific records about this tradition, this could be a perfect time to start documenting your family's cultural heritage."
  else if query_type = "relationship_discovery" then
    "For questions about family relationships, I suggest speaking with elder family members to learn more about your family history. Recording these precious connections would be very valuable."
  else "I couldn't find information directly related to your question in our family records. However, I'd be happy to help you think about how to gather and record relevant information."

/-- RAGService._generate_fallback_response: language-branched lookup in the
canned tables, defaulting to the "general" entry. -/
def generate_fallback_response (query query_type : String) : String :=
  if detect_language query = "zh-CN" then fallback_zh query_type
  else fallback_en query_type

/-- RAGService._generate_ai_response: outcome of the external chat call on
(query, context, query type) — prompt assembly folded into the external
function — with any exception degraded to the fallback response. -/
def generate_ai_response (ai : String → String → String → Except String String)
    (query context query_type : String) : String :=
  match ai query context query_type with
  | .ok t => t
  | .error _ => generate_fallback_response query query_type

/-- A source entry of `_format_sources` (the type-specific extras elided
from `SearchResult` are elided here too; decimal display rounding of the
relevance is not modelled). -/
structure Source where
  type : String
  id : Nat
  title : String
  relevance : ℚ
deriving DecidableEq

/-- RAGService._format_sources. -/
def format_sources (search_results : List SearchResult) : List Source :=
  search_results.map fun r =>
    { type := r.content_type.getD "unknown"
      id := r.id
      title := r.title
      relevance := r.similarity }

/-- The metadata dict of a RAG response; the `error` key is only present
(`some`) in error responses. -/
structure RAGMetadata where
  query_type : String
  confidence : ℚ
  processing_time : ℚ
  sources_count : Nat
  language : String
  error : Option String
deriving DecidableEq

/-- The response dict returned by `generate_response`. -/
structure RAGResponse where
  query : String
  response : String
  sources : List Source
  metadata : RAGMetadata
deriving DecidableEq

/-- RAGService._generate_error_response: canned language-matched apology,
empty sources, and metadata carrying query_type "error", zero confidence
and the exception message. -/
def generate_error_response (query error : String) : RAGResponse :=
  let language := detect_language query
  let error_message :=
    if language = "zh-CN" then
      "抱歉，处理您的问题时遇到了技术问题。请稍后再试，或者联系系统管理员。"
    else
      "I'm sorry, but I encountered a technical issue while processing your question. Please try again later or contact the system administrator."
  { query := query
    response := error_message
    sources := []
    metadata :=
      { query_type := "error"
        confidence := 0
        processing_time := 0
        sources_count := 0
        language := language
        error := some error } }

/-- RAGService.generate_response: classify, search, build context, generate
(or fall back on empty context), format — with the whole pipeline wrapped
in one failure boundary converting any escaped exception (the search
backend being the one fallible step reaching it, the chat call catching
its own) into `generate_error_response`. -/
def generate_response (searchFn : String → Nat → ℚ → Except String (List SearchResult))
    (ai : String → String → String → Except String String)
    (query : String) (max_results : Nat) (similarity_threshold : ℚ)
    (processing_time : ℚ) : RAGResponse :=
  let query_type := classify_query query
  match searchFn query max_results similarity_threshold with
  | .error e => generate_error_response query e
  | .ok search_results =>
    let context := build_context search_results
    let response_text :=
      if context ≠ "" then generate_ai_response ai query context query_type
      else generate_fallback_response query query_type
    { query := query
      response := response_text
      sources := format_sources search_results
      metadata :=
        { query_type := query_type
          confidence := calculate_confidence search_results
          processing_time := processing_time
          sources_count := search_results.length
          language := detect_language query
          error := none } }

/-! ### Concrete fixtures used by the example evaluations and witnesses -/

/-- The three-result list `[{'similarity':0.9},{'similarity':0.8},{'similarity':0.7}]`
(fields other than similarity are immaterial to `_calculate_confidence`). -/
def c1_input : List SearchResult :=
  [⟨0, "", "", 9/10, none⟩, ⟨0, "", "", 8/10, none⟩, ⟨0, "", "", 7/10, none⟩]

/-- A search backend that always raises. -/
def failingSearch : String → Nat → ℚ → Except String (List SearchResult) :=
  fun _ _ _ => .error "search backend failure"

/-- A chat backend that always succeeds (contents immaterial). -/
def okAi : String → String → String → Except String String :=
  fun _ _ _ => .ok "ok"

/-- An embedding service whose external generator always fails; the hash
function is instantiated with the identity digest. -/
def svcGenFails : EmbeddingService := ⟨fun s => s, fun _ => none⟩

/-- An embedding service whose external generator always returns `[1]`. -/
def svcGenOk : EmbeddingService := ⟨fun s => s, fun _ => some [1]⟩

/-- A story instance whose embedding is current with respect to
`cacheForStory1`. -/
def story1 : MInstance :=
  { model_name := "Story", id := 1, title := "T", content := "C",
    name := "", description := "", bio := "",
    content_embedding := some [1], embedding_updated := some 0 }

/-- A cache holding the vector of `story1` under the digest of its
extracted text (identity digest). -/
def cacheForStory1 : Cache := [("T\n\nC", ⟨"story", 1, [1]⟩)]

/-- A two-record corpus: one story (the reference) and one event. -/
def corpusC10 : Corpus :=
  { story := [⟨1, "t", "c", some [1]⟩]
    event := [⟨2, "e", "d", some [2]⟩]
    heritage := []
    health := [] }

/-! ## Theorems -/

/-- The explicit binary minimum agrees with the order-theoretic one. -/
theorem qmin_eq_min (a b : ℚ) : qmin a b = min a b := by
  rw [qmin, min_def]

/-- Helper: the clamped confidence value at `c1_input` is exactly 1. -/
theorem calculate_confidence_c1_input : calculate_confidence c1_input = 1 := by
  norm_num [calculate_confidence, c1_input, qmin]

/-- C1, counterexample: at `[{'similarity':0.9},{'similarity':0.8},{'similarity':0.7}]`
the boost `min(0.3, 0.2) = 0.2` added to the average `0.8` reaches the clamp,
so the returned value is exactly 1.0 and not strictly below it. -/
theorem C1_counterexample :
    ¬ (8/10 < calculate_confidence c1_input ∧ calculate_confidence c1_input < 1) := by
  rw [calculate_confidence_c1_input]
  norm_num

/-- C1 (amended): confidence is 0.0 exactly on the empty list; on a
non-empty list it is the mean similarity of the first three results plus
`min(0.1 * count, 0.2)`, clamped to 1.0; at the three-result example input
it is strictly greater than 0.8 and equal to 1.0 (hence at most, but not
strictly below, 1.0). -/
theorem C1_confidence :
    calculate_confidence [] = 0 ∧
    (∀ rs : List SearchResult, rs ≠ [] →
      calculate_confidence rs =
        min (((rs.take 3).map (fun r => r.similarity)).sum /
              (((rs.take 3).map (fun r => r.similarity)).length : ℚ) +
             min ((rs.length : ℚ) * (1/10)) (2/10)) 1) ∧
    8/10 < calculate_confidence c1_input ∧ calculate_confidence c1_input = 1 := by
  refine ⟨by norm_num [calculate_confidence], ?_, ?_, calculate_confidence_c1_input⟩
  · intro rs h
    rw [calculate_confidence, if_neg (by simpa using h), qmin_eq_min, qmin_eq_min]
  · rw [calculate_confidence_c1_input]; norm_num

/-- C1, witness: the non-emptiness hypothesis holds at the example input
and the amended equation follows there by applying the theorem. -/
theorem C1_witness :
    c1_input ≠ [] ∧
    calculate_confidence c1_input =
      min (((c1_input.take 3).map (fun r => r.similarity)).sum /
            (((c1_input.take 3).map (fun r => r.similarity)).length : ℚ) +
           min ((c1_input.length : ℚ) * (1/10)) (2/10)) 1 :=
  ⟨by simp [c1_input], C1_confidence.2.1 c1_input (by simp [c1_input])⟩

/-- C2: if the search backend raises inside `generate_response`, the call
returns the error response — query_type "error", confidence 0, the
exception message under the error key, and no sources — instead of
propagating the exception. -/
theorem C2_error_boundary :
    ∀ (searchFn : String → Nat → ℚ → Except String (List SearchResult))
      (ai : String → String → String → Except String String)
      (query : String) (max_results : Nat) (threshold pt : ℚ) (msg : String),
      searchFn query max_results threshold = .error msg →
      generate_response searchFn ai query max_results threshold pt =
        generate_error_response query msg ∧
      (generate_response searchFn ai query max_results threshold pt).metadata.query_type =
        "error" ∧
      (generate_response searchFn ai query max_results threshold pt).metadata.confidence = 0 ∧
      (generate_response searchFn ai query max_results threshold pt).metadata.error = some msg ∧
      (generate_response searchFn ai query max_results threshold pt).sources = [] := by
  intro searchFn ai query max_results threshold pt msg h
  have he : generate_response searchFn ai query max_results threshold pt =
      generate_error_response query msg := by
    simp only [generate_response, h]
  refine ⟨he, ?_, ?_, ?_, ?_⟩ <;> rw [he] <;> simp [generate_error_response]

/-- C2, witness: the always-raising backend triggers the error boundary on
a concrete query. -/
theorem C2_witness :
    failingSearch "hello" 5 (6/10) = .error "search backend failure" ∧
    (generate_response failingSearch okAi "hello" 5 (6/10) 0).metadata.query_type = "error" ∧
    (generate_response failingSearch okAi "hello" 5 (6/10) 0).metadata.confidence = 0 ∧
    (generate_response failingSearch okAi "hello" 5 (6/10) 0).metadata.error =
      some "search backend failure" ∧
    (generate_response failingSearch okAi "hello" 5 (6/10) 0).sources = [] := by
  have h := C2_error_boundary failingSearch okAi "hello" 5 (6/10) 0 "search backend failure" rfl
  exact ⟨rfl, h.2.1, h.2.2.1, h.2.2.2.1, h.2.2.2.2⟩

/-- C3: with `force=False`, a truthy stored embedding, a freshness
timestamp, and a cache row for the current text's digest holding exactly
the stored vector, `update_model_embedding` returns `False` and leaves the
instance, the cache and the API untouched — and a second call under the
same conditions does so again. -/
theorem C3_update_noop :
    ∀ (svc : EmbeddingService) (inst : MInstance) (now1 now2 : Nat) (cache : Cache)
      (v : Vec) (entry : CacheEntry),
      extract_content_text inst ≠ "" →
      inst.content_embedding = some v →
      v ≠ [] →
      inst.embedding_updated.isSome = true →
      cache.lookup (svc.hashFn (extract_content_text inst)) = some entry →
      entry.embedding = v →
      svc.update_model_embedding inst false now1 cache = ⟨false, inst, cache, 0⟩ ∧
      svc.update_model_embedding inst false now2 cache = ⟨false, inst, cache, 0⟩ := by
  intro svc inst now1 now2 cache v entry htext hemb hv hts hlook heq
  have hup :
      ∀ now : Nat, svc.update_model_embedding inst false now cache = ⟨false, inst, cache, 0⟩ := by
    intro now
    rw [EmbeddingService.update_model_embedding]
    simp only [if_neg htext, hlook, hemb, hts, optVecTruthy]
    rw [if_pos]
    simp [heq, List.isEmpty_eq_false.mpr hv]
  exact ⟨hup now1, hup now2⟩

/-- C3, witness: the hypotheses hold for the concrete story instance whose
cached vector matches its stored embedding, and the double no-op follows
by the theorem. -/
theorem C3_witness :
    extract_content_text story1 ≠ "" ∧
    story1.content_embedding = some [1] ∧
    ([1] : Vec) ≠ [] ∧
    story1.embedding_updated.isSome = true ∧
    cacheForStory1.lookup (svcGenOk.hashFn (extract_content_text story1)) =
      some ⟨"story", 1, [1]⟩ ∧
    svcGenOk.update_model_embedding story1 false 5 cacheForStory1 =
      ⟨false, story1, cacheForStory1, 0⟩ ∧
    svcGenOk.update_model_embedding story1 false 6 cacheForStory1 =
      ⟨false, story1, cacheForStory1, 0⟩ := by
  have h := C3_update_noop svcGenOk story1 5 6 cacheForStory1 [1] ⟨"story", 1, [1]⟩
    (by decide) rfl (by decide) rfl rfl rfl
  exact ⟨by decide, rfl, by decide, rfl, rfl, h.1, h.2⟩

/-- C4, counterexample: with a failing generator and an empty cache, two
successive `get_or_create_embedding` calls on the same non-empty text both
miss and both invoke the generator, so the API is invoked twice, not at
most once. -/
theorem C4_counterexample :
    ¬ ((svcGenFails.get_or_create_embedding "a" "story" 1 []).genCalls +
       (svcGenFails.get_or_create_embedding "a" "story" 1
         (svcGenFails.get_or_create_embedding "a" "story" 1 []).cache).genCalls ≤ 1) := by
  decide

/-- C4 (amended): for non-empty text, two successive calls against the
evolving cache return the same value; when the first call yields a vector
(cache hit or successful generation) the generator runs at most once across
both calls; a cache hit never invokes the generator; and a failed
generation writes nothing and returns `None` — but then each of the two
calls invokes the generator once, so the unconditional at-most-once bound
fails. -/
theorem C4_cache_idempotence :
    ∀ (svc : EmbeddingService) (text content_type : String) (content_id : Nat) (c0 : Cache),
      strStrip text ≠ "" →
      (svc.get_or_create_embedding text content_type content_id c0).value =
        (svc.get_or_create_embedding text content_type content_id
          (svc.get_or_create_embedding text content_type content_id c0).cache).value ∧
      ((svc.get_or_create_embedding text content_type content_id c0).value.isSome = true →
        (svc.get_or_create_embedding text content_type content_id c0).genCalls +
        (svc.get_or_create_embedding text content_type content_id
          (svc.get_or_create_embedding text content_type content_id c0).cache).genCalls ≤ 1) ∧
      ((c0.lookup (svc.hashFn text)).isSome = true →
        (svc.get_or_create_embedding text content_type content_id c0).genCalls = 0) ∧
      (c0.lookup (svc.hashFn text) = none →
        svc.generate_embedding text = none →
        (svc.get_or_create_embedding text content_type content_id c0).value = none ∧
        (svc.get_or_create_embedding text content_type content_id c0).cache = c0) := by
  intro svc text content_type content_id c0 htext
  rcases hlook : c0.lookup (svc.hashFn text) with _ | entry
  · rcases hgen : svc.generate_embedding text with _ | emb
    · have h1 : svc.get_or_create_embedding text content_type content_id c0 =
          ⟨none, c0, 1⟩ := by
        rw [EmbeddingService.get_or_create_embedding]
        simp [if_neg htext, hlook, hgen]
      refine ⟨?_, ?_, ?_, ?_⟩
      · simp only [h1]
      · simp [h1]
      · simp [hlook]
      · intro _ _
        exact ⟨by simp [h1], by simp [h1]⟩
    · have h1 : svc.get_or_create_embedding text content_type content_id c0 =
          ⟨some emb, cacheUpdateOrCreate c0 (svc.hashFn text)
            ⟨content_type, content_id, emb⟩, 1⟩ := by
        rw [EmbeddingService.get_or_create_embedding]
        simp [if_neg htext, hlook, hgen]
      have hupd : cacheUpdateOrCreate c0 (svc.hashFn text) ⟨content_type, content_id, emb⟩ =
          (svc.hashFn text, ⟨content_type, content_id, emb⟩) :: c0 := by
        rw [cacheUpdateOrCreate, if_neg]
        simp [hlook]
      have h2 : svc.get_or_create_embedding text content_type content_id
          ((svc.hashFn text, (⟨content_type, content_id, emb⟩ : CacheEntry)) :: c0) =
          ⟨some emb, (svc.hashFn text, ⟨content_type, content_id, emb⟩) :: c0, 0⟩ := by
        rw [EmbeddingService.get_or_create_embedding]
        simp [if_neg htext, List.lookup]
      refine ⟨?_, ?_, ?_, ?_⟩
      · simp only [h1, hupd, h2]
      · intro _
        simp only [h1, hupd, h2]
        omega
      · simp [hlook]
      · intro _ h
        exact Option.noConfusion h
  · have h1 : svc.get_or_create_embedding text content_type content_id c0 =
        ⟨some entry.embedding, c0, 0⟩ := by
      rw [EmbeddingService.get_or_create_embedding]
      simp [if_neg htext, hlook]
    refine ⟨?_, ?_, ?_, ?_⟩
    · simp only [h1]
    · intro _; simp [h1]
    · intro _; simp [h1]
    · intro h
      exact Option.noConfusion h

/-- C4, witness: a successful generator on the empty cache — the first
call generates and caches, the second hits, together at most one API call. -/
theorem C4_witness :
    strStrip "abc" ≠ "" ∧
    ((svcGenOk.get_or_create_embedding "abc" "story" 1 []).value =
      (svcGenOk.get_or_create_embedding "abc" "story" 1
        (svcGenOk.get_or_create_embedding "abc" "story" 1 []).cache).value) ∧
    ((svcGenOk.get_or_create_embedding "abc" "story" 1 []).value.isSome = true →
      (svcGenOk.get_or_create_embedding "abc" "story" 1 []).genCalls +
      (svcGenOk.get_or_create_embedding "abc" "story" 1
        (svcGenOk.get_or_create_embedding "abc" "story" 1 []).cache).genCalls ≤ 1) := by
  have h := C4_cache_idempotence svcGenOk "abc" "story" 1 [] (by decide)
  exact ⟨by decide, h.1, h.2.1⟩

/-- C9: on a cache hit `get_or_create_embedding` returns the cached vector
and leaves the whole cache unchanged — in particular the row's owner
metadata keeps describing the original owner whatever `content_type` and
`content_id` the caller passes — and the generator is not invoked. -/
theorem C9_cache_hit_no_write :
    ∀ (svc : EmbeddingService) (text content_type : String) (content_id : Nat)
      (cache : Cache) (entry : CacheEntry),
      strStrip text ≠ "" →
      cache.lookup (svc.hashFn text) = some entry →
      svc.get_or_create_embedding text content_type content_id cache =
        ⟨some entry.embedding, cache, 0⟩ := by
  intro svc text content_type content_id cache entry htext hlook
  rw [EmbeddingService.get_or_create_embedding]
  simp [if_neg htext, hlook]

/-- C9, witness: a hit on a one-row cache returns the stored vector and
keeps the row's owner metadata although the caller passes a different
owner. -/
theorem C9_witness :
    strStrip "T\n\nC" ≠ "" ∧
    cacheForStory1.lookup (svcGenOk.hashFn "T\n\nC") = some ⟨"story", 1, [1]⟩ ∧
    svcGenOk.get_or_create_embedding "T\n\nC" "event" 77 cacheForStory1 =
      ⟨some [1], cacheForStory1, 0⟩ :=
  ⟨by decide, rfl,
   C9_cache_hit_no_write svcGenOk "T\n\nC" "event" 77 cacheForStory1 ⟨"story", 1, [1]⟩
     (by decide) rfl⟩

/-- C7: `_classify_query` tries the five keyword bags against the
lowercased query in the fixed priority order health, event, heritage,
relationship, memory — the first bag with a member occurring in the query
wins, no match gives "general" — and in particular the mixed query
"family health traditions" (health + heritage + relationship keywords)
classifies as health_pattern. -/
theorem C7_classify_priority :
    (∀ query : String,
      (health_keywords.any (fun kw => strContains (strToLower query) kw) = true →
        classify_query query = "health_pattern") ∧
      (health_keywords.any (fun kw => strContains (strToLower query) kw) = false →
        event_keywords.any (fun kw => strContains (strToLower query) kw) = true →
        classify_query query = "event_planning") ∧
      (health_keywords.any (fun kw => strContains (strToLower query) kw) = false →
        event_keywords.any (fun kw => strContains (strToLower query) kw) = false →
        heritage_keywords.any (fun kw => strContains (strToLower query) kw) = true →
        classify_query query = "cultural_heritage") ∧
      (health_keywords.any (fun kw => strContains (strToLower query) kw) = false →
        event_keywords.any (fun kw => strContains (strToLower query) kw) = false →
        heritage_keywords.any (fun kw => strContains (strToLower query) kw) = false →
        relationship_keywords.any (fun kw => strContains (strToLower query) kw) = true →
        classify_query query = "relationship_discovery") ∧
      (health_keywords.any (fun kw => strContains (strToLower query) kw) = false →
        event_keywords.any (fun kw => strContains (strToLower query) kw) = false →
        heritage_keywords.any (fun kw => strContains (strToLower query) kw) = false →
        relationship_keywords.any (fun kw => strContains (strToLower query) kw) = false →
        memory_keywords.any (fun kw => strContains (strToLower query) kw) = true →
        classify_query query = "memory_discovery") ∧
      (health_keywords.any (fun kw => strContains (strToLower query) kw) = false →
        event_keywords.any (fun kw => strContains (strToLower query) kw) = false →
        heritage_keywords.any (fun kw => strContains (strToLower query) kw) = false →
        relationship_keywords.any (fun kw => strContains (strToLower query) kw) = false →
        memory_keywords.any (fun kw => strContains (strToLower query) kw) = false →
        classify_query query = "general")) ∧
    classify_query "family health traditions" = "health_pattern" := by
  refine ⟨fun query => ?_, by decide⟩
  refine ⟨fun h1 => ?_, fun h1 h2 => ?_, fun h1 h2 h3 => ?_, fun h1 h2 h3 h4 => ?_,
    fun h1 h2 h3 h4 h5 => ?_, fun h1 h2 h3 h4 h5 => ?_⟩
  · simp [classify_query, h1]
  · simp [classify_query, h1, h2]
  · simp [classify_query, h1, h2, h3]
  · simp [classify_query, h1, h2, h3, h4]
  · simp [classify_query, h1, h2, h3, h4, h5]
  · simp [classify_query, h1, h2, h3, h4, h5]

/-- C7, witness: the mixed query matches a health keyword, and the theorem
applied there yields the health classification. -/
theorem C7_witness :
    health_keywords.any
      (fun kw => strContains (strToLower "family health traditions") kw) = true ∧
    classify_query "family health traditions" = "health_pattern" :=
  ⟨by decide,
   (C7_classify_priority.1 "family health traditions").1 (by decide)⟩

/-- C8: `_detect_language` returns "zh-CN" exactly when the number of
characters in the CJK Unified Ideographs range U+4E00–U+9FFF strictly
exceeds 30% of the character count, returns "en-US" in every other case,
and classifies the two example queries as Chinese and English
respectively. -/
theorem C8_detect_language :
    (∀ s : String,
      (detect_language s = "zh-CN" ↔
        ((s.data.countP fun c => 0x4e00 ≤ c.toNat && c.toNat ≤ 0x9fff : ℚ) >
          (s.data.length : ℚ) * (3/10))) ∧
      (detect_language s = "zh-CN" ∨ detect_language s = "en-US")) ∧
    detect_language "这是中文查询测试" = "zh-CN" ∧
    detect_language "This is an English query test" = "en-US" := by
  refine ⟨fun s => ⟨?_, ?_⟩, ?_, ?_⟩
  · rw [detect_language]
    split_ifs with h
    · exact iff_of_true rfl h
    · exact iff_of_false (by decide) h
  · rw [detect_language]
    split_ifs <;> simp
  · have hc : ("这是中文查询测试".data.countP
        fun c => 0x4e00 ≤ c.toNat && c.toNat ≤ 0x9fff) = 8 := by decide
    have hl : "这是中文查询测试".data.length = 8 := by decide
    simp only [detect_language, hc, hl]
    norm_num
  · have hc : ("This is an English query test".data.countP
        fun c => 0x4e00 ≤ c.toNat && c.toNat ≤ 0x9fff) = 0 := by decide
    have hl : "This is an English query test".data.length = 29 := by decide
    simp only [detect_language, hc, hl]
    norm_num

/-- Helper: a pointwise stronger Boolean filter keeps at most as many
elements. -/
theorem length_filter_le_of_imp {α : Type} (l : List α) (p q : α → Bool)
    (h : ∀ x, p x = true → q x = true) :
    (l.filter p).length ≤ (l.filter q).length := by
  induction l with
  | nil => simp
  | cons a t ih =>
    rw [List.filter_cons, List.filter_cons]
    by_cases hp : p a = true
    · rw [if_pos hp, if_pos (h a hp)]
      simp only [List.length_cons]
      exact Nat.succ_le_succ ih
    · rw [if_neg hp]
      by_cases hq : q a = true
      · rw [if_pos hq]
        exact ih.trans (Nat.le_succ _)
      · rw [if_neg hq]
        exact ih

/-- Helper: the per-collection hit count of `_search_model` never grows
when the similarity threshold is raised. -/
theorem search_model_length_mono (dist : Vec → Vec → ℚ) (records : List SRecord)
    (qe : Vec) (limit : Nat) {t1 t2 : ℚ} (h : t2 ≤ t1) :
    (search_model dist records qe limit t1).length ≤
    (search_model dist records qe limit t2).length := by
  simp only [search_model, List.length_map, List.length_take, List.length_mergeSort]
  refine min_le_min (le_refl limit) ?_
  refine length_filter_le_of_imp _ _ _ ?_
  intro x hx
  exact decide_eq_true (le_trans h (of_decide_eq_true hx))

/-- C5: every `semantic_search` result list has length at most the overall
limit and is ordered by similarity descending (any later result's
similarity is at most any earlier one's). -/
theorem C5_semantic_search_ranked :
    ∀ (dist : Vec → Vec → ℚ) (corpus : Corpus) (svc : EmbeddingService) (query : String)
      (model_types : Option (List String)) (limit : Nat) (threshold : ℚ),
      (semantic_search dist corpus svc query model_types limit threshold).length ≤ limit ∧
      (semantic_search dist corpus svc query model_types limit threshold).Pairwise
        (fun a b => b.similarity ≤ a.similarity) := by
  intro dist corpus svc query model_types limit threshold
  simp only [semantic_search]
  split_ifs with hq
  · exact ⟨by simp, List.Pairwise.nil⟩
  cases hgen : svc.generate_embedding query with
  | none => exact ⟨by simp, List.Pairwise.nil⟩
  | some qe =>
    dsimp only
    split_ifs with he
    · exact ⟨by simp, List.Pairwise.nil⟩
    constructor
    · exact List.length_take_le _ _
    · refine List.Pairwise.sublist (List.take_sublist _ _) ?_
      refine (List.sorted_mergeSort ?_ ?_ _).imp ?_
      · intro a b c hab hbc
        exact decide_eq_true (le_trans (of_decide_eq_true hbc) (of_decide_eq_true hab))
      · intro a b
        rcases le_total b.similarity a.similarity with hab | hab <;>
          simp [hab]
      · intro a b hab
        exact of_decide_eq_true hab

/-- C6: for a fixed query, corpus, requested types and limit, raising the
similarity threshold never increases the number of results returned by
`semantic_search`. -/
theorem C6_threshold_monotone :
    ∀ (dist : Vec → Vec → ℚ) (corpus : Corpus) (svc : EmbeddingService) (query : String)
      (model_types : Option (List String)) (limit : Nat) (t1 t2 : ℚ),
      t2 ≤ t1 →
      (semantic_search dist corpus svc query model_types limit t1).length ≤
      (semantic_search dist corpus svc query model_types limit t2).length := by
  intro dist corpus svc query model_types limit t1 t2 h
  simp only [semantic_search]
  split_ifs with hq
  · exact le_refl 0
  cases hgen : svc.generate_embedding query with
  | none => exact le_refl 0
  | some qe =>
    dsimp only
    split_ifs with he
    · exact le_refl 0
    simp only [List.length_take, List.length_mergeSort, List.length_flatten, List.map_map]
    refine min_le_min (le_refl limit) ?_
    refine List.sum_le_sum ?_
    intro mt _
    simp only [Function.comp]
    cases hlk : SEARCHABLE_MODELS.lookup mt with
    | none => simp
    | some key =>
      simp only [List.length_map]
      exact search_model_length_mono dist (corpus.get key) qe limit h

/-- C6, witness: the theorem applied at a concrete corpus and a pair of
equal thresholds. -/
theorem C6_witness :
    (0 : ℚ) ≤ 1 ∧
    (semantic_search (fun _ _ => 0) corpusC10 svcGenOk "q" none 5 1).length ≤
    (semantic_search (fun _ _ => 0) corpusC10 svcGenOk "q" none 5 0).length :=
  ⟨by norm_num,
   C6_threshold_monotone (fun _ _ => 0) corpusC10 svcGenOk "q" none 5 1 0 (by norm_num)⟩

/-- Helper: `filterMap` keeps every element whose image is `some`. -/
theorem length_filterMap_of_isSome {α β : Type} (l : List α) (f : α → Option β)
    (h : ∀ x ∈ l, (f x).isSome = true) : (l.filterMap f).length = l.length := by
  induction l with
  | nil => rfl
  | cons a t ih =>
    rw [List.filterMap_cons]
    rcases hfa : f a with _ | b
    · exact absurd (h a (List.mem_cons_self a t)) (by simp [hfa])
    · simp only [List.length_cons]
      rw [ih fun x hx => h x (List.mem_cons_of_mem a hx)]

/-- Helper: every member of a list of naturals is at most its sum. -/
theorem nat_le_sum_of_mem {l : List Nat} {x : Nat} (h : x ∈ l) : x ≤ l.sum := by
  induction l with
  | nil => cases h
  | cons a t ih =>
    rcases List.mem_cons.mp h with rfl | h'
    · rw [List.sum_cons]
      exact Nat.le_add_right _ _
    · rw [List.sum_cons]
      exact (ih h').trans (Nat.le_add_left _ _)

/-- C10: `find_related_content` caps its output at `limit`, and it applies
no minimum-similarity threshold: whenever the per-collection candidate
counts sum to at most `limit`, every record with a non-null embedding other
than the reference itself appears in the result, whatever the (arbitrary,
possibly negative) similarity `1 - dist` assigns to it. -/
theorem C10_no_threshold :
    ∀ (dist : Vec → Vec → ℚ) (corpus : Corpus) (content_id : Nat) (content_type : String)
      (limit : Nat),
      (find_related_content dist corpus content_id content_type limit).length ≤ limit ∧
      (∀ refKey, SEARCHABLE_MODELS.lookup content_type = some refKey →
        ∀ ref_obj, (corpus.get refKey).find? (fun r => r.id == content_id) = some ref_obj →
        ∀ refEmb, ref_obj.content_embedding = some refEmb →
        refEmb.isEmpty = false →
        ((SEARCHABLE_MODELS.map fun mk =>
            (related_candidates corpus content_type content_id mk.1 mk.2).length).sum ≤ limit) →
        ∀ mk, mk ∈ SEARCHABLE_MODELS →
        ∀ r, r ∈ related_candidates corpus content_type content_id mk.1 mk.2 →
        ∀ em, r.content_embedding = some em →
        ∃ sr, sr ∈ find_related_content dist corpus content_id content_type limit ∧
          sr.id = r.id ∧ sr.content_type = some mk.1 ∧
          sr.similarity = 1 - dist em refEmb) := by
  intro dist corpus content_id content_type limit
  constructor
  · simp only [find_related_content]
    cases hlk : SEARCHABLE_MODELS.lookup content_type with
    | none => simp
    | some refKey =>
      dsimp only
      cases hfind : (corpus.get refKey).find? (fun r => r.id == content_id) with
      | none => simp
      | some ref_obj =>
        dsimp only
        cases hemb : ref_obj.content_embedding with
        | none => simp
        | some refEmb =>
          dsimp only
          split_ifs with he
          · simp
          · exact List.length_take_le _ _
  · intro refKey hlk ref_obj hfind refEmb hemb hne hsum mk hmk r hr em hem
    have hcand_len : ∀ mk' ∈ SEARCHABLE_MODELS,
        (related_candidates corpus content_type content_id mk'.1 mk'.2).length ≤ limit := by
      intro mk' hmk'
      refine le_trans (nat_le_sum_of_mem ?_) hsum
      exact List.mem_map_of_mem _ hmk'
    have hannot_len : ∀ mk' : String × ModelKey,
        ((related_candidates corpus content_type content_id mk'.1 mk'.2).filterMap
          (fun r' => r'.content_embedding.map fun e => (r', 1 - dist e refEmb))).length =
        (related_candidates corpus content_type content_id mk'.1 mk'.2).length := by
      intro mk'
      refine length_filterMap_of_isSome _ _ ?_
      intro x hx
      have hx1 : x ∈ (corpus.get mk'.2).filter fun r' => r'.content_embedding.isSome :=
        (List.mem_filter.mp hx).1
      have hx2 := (List.mem_filter.mp hx1).2
      simpa using hx2
    simp only [find_related_content, hlk, hfind, hemb]
    rw [if_neg (by simp [hne])]
    have hflat_len :
        ((SEARCHABLE_MODELS.map fun mk' =>
          ((((related_candidates corpus content_type content_id mk'.1 mk'.2).filterMap
              (fun r' => r'.content_embedding.map fun e => (r', 1 - dist e refEmb))).mergeSort
              (fun a b => decide (b.2 ≤ a.2))).take limit).map
            (fun p => { format_search_result p.1 p.2 with
                          content_type := some mk'.1 })).flatten).length ≤ limit := by
      rw [List.length_flatten, List.map_map]
      refine le_trans (le_of_eq ?_) hsum
      refine congrArg List.sum ?_
      refine List.map_congr_left ?_
      intro mk' hmk'
      simp only [Function.comp, List.length_map, List.length_take, List.length_mergeSort,
        hannot_len mk']
      exact Nat.min_eq_right (hcand_len mk' hmk')
    rw [List.take_of_length_le (by rw [List.length_mergeSort]; exact hflat_len)]
    refine ⟨{ format_search_result r (1 - dist em refEmb) with content_type := some mk.1 },
      ?_, rfl, rfl, rfl⟩
    rw [(List.mergeSort_perm _ _).mem_iff]
    refine List.mem_flatten_of_mem (List.mem_map_of_mem _ hmk) ?_
    have hpair : (r, 1 - dist em refEmb) ∈
        (related_candidates corpus content_type content_id mk.1 mk.2).filterMap
          (fun r' => r'.content_embedding.map fun e => (r', 1 - dist e refEmb)) := by
      refine List.mem_filterMap.mpr ⟨r, hr, ?_⟩
      rw [hem]
      rfl
    refine List.mem_map.mpr ⟨(r, 1 - dist em refEmb), ?_, rfl⟩
    rw [List.take_of_length_le]
    · exact ((List.mergeSort_perm _ _).mem_iff).mpr hpair
    · rw [List.length_mergeSort, hannot_len mk]
      exact hcand_len mk hmk

/-- C10, witness: in the two-record corpus the single candidate (the event
record) is returned as related content of the story record although the
distance function makes its similarity negative. -/
theorem C10_witness :
    SEARCHABLE_MODELS.lookup "story" = some ModelKey.story ∧
    (corpusC10.get ModelKey.story).find? (fun r => r.id == 1) =
      some ⟨1, "t", "c", some [1]⟩ ∧
    (⟨1, "t", "c", some [1]⟩ : SRecord).content_embedding = some [1] ∧
    ([1] : Vec).isEmpty = false ∧
    ((SEARCHABLE_MODELS.map fun mk =>
        (related_candidates corpusC10 "story" 1 mk.1 mk.2).length).sum ≤ 5) ∧
    ("event", ModelKey.event) ∈ SEARCHABLE_MODELS ∧
    (⟨2, "e", "d", some [2]⟩ : SRecord) ∈ related_candidates corpusC10 "story" 1 "event" ModelKey.event ∧
    (∃ sr, sr ∈ find_related_content (fun _ _ => 100) corpusC10 1 "story" 5 ∧
      sr.id = 2 ∧ sr.content_type = some "event" ∧
      sr.similarity = 1 - (fun (_ _ : Vec) => (100 : ℚ)) [2] [1]) := by
  have hmem : (⟨2, "e", "d", some [2]⟩ : SRecord) ∈
      related_candidates corpusC10 "story" 1 "event" ModelKey.event := by
    rw [show related_candidates corpusC10 "story" 1 "event" ModelKey.event =
      [⟨2, "e", "d", some [2]⟩] from rfl]
    exact List.mem_cons_self _ _
  refine ⟨rfl, rfl, rfl, rfl, by decide, ?_, hmem, ?_⟩
  · exact List.mem_cons_of_mem _ (List.mem_cons_self _ _)
  · exact (C10_no_threshold (fun _ _ => 100) corpusC10 1 "story" 5).2
      ModelKey.story rfl ⟨1, "t", "c", some [1]⟩ rfl [1] rfl rfl (by decide)
      ("event", ModelKey.event) (List.mem_cons_of_mem _ (List.mem_cons_self _ _))
      ⟨2, "e", "d", some [2]⟩ hmem [2] rfl

end FamilyKM
